import Mathlib

/-!
Verification development for the todo-list web application
(custom router, `TodoController`, and the `Todo` entity module
over a relational store).

The entity module (`src/models/Todo.ts`), the controller
(`TodoController`), and the SQL schema are embedded shallowly:
the relational store is a record of row lists, timestamps are
naturals, and each handler is a pure function from store and
request to store, response, and an error-logged flag.
-/

namespace TodoApp

/-- The `todo_status` SQL enum type: values incomplete and complete. -/
inductive TodoStatus where
  | incomplete
  | complete
deriving DecidableEq, Repr, BEq

/-- Timestamps (values of `createUTCDate()`) are modelled as naturals. -/
abbrev Timestamp := Nat

/-- Errors the relational store can raise: a connection failure, or a
NOT NULL constraint violation (`title`/`description` are NOT NULL in the
schema). -/
inductive StoreError where
  | connectionFailure
  | notNullViolation
deriving DecidableEq, Repr, BEq

/-- A row of the `todos` table, in application (camel-case) naming.
Columns follow the schema in the SQL setup file plus the `user_id`
column that `TodoProps` in `src/models/Todo.ts` references (the spec
notes the schema must be extended with it); the stub controller never
populates it, so it is optional. -/
structure TodoRow where
  id : Nat
  title : String
  description : String
  status : TodoStatus
  dueAt : Option Timestamp
  createdAt : Timestamp
  completedAt : Option Timestamp
  editedAt : Option Timestamp
  userId : Option Nat
deriving DecidableEq, Repr, BEq

/-- A row of the `subtodos` table: `id, title, status, created_at,
completed_at, edited_at, todo_id REFERENCES todos(id) ON DELETE CASCADE`. -/
structure SubtodoRow where
  id : Nat
  title : String
  status : TodoStatus
  createdAt : Timestamp
  completedAt : Option Timestamp
  editedAt : Option Timestamp
  todoId : Option Nat
deriving DecidableEq, Repr, BEq

/-- The relational store: the `todos` and `subtodos` tables, the SERIAL
sequence for `todos.id`, and a fault flag modelling a store whose
connection fails (every statement then raises `connectionFailure`). -/
structure Store where
  todos : List TodoRow
  subtodos : List SubtodoRow
  nextTodoId : Nat
  failing : Bool
deriving DecidableEq, Repr

/-- The argument of `Todo.create`: a `TodoProps` object as built by
callers.  `title`/`description` are optional because the stub controller
copies `req.body.title`/`req.body.description` without validating
presence. -/
structure TodoInsert where
  title : Option String := none
  description : Option String := none
  status : TodoStatus := .incomplete
  dueAt : Option Timestamp := none
  createdAt : Option Timestamp := none
  completedAt : Option Timestamp := none
  editedAt : Option Timestamp := none
  userId : Option Nat := none
deriving DecidableEq, Repr

/-- The argument of `Todo.update`: a `Partial<TodoProps>` — a field is
`some v` exactly when the caller supplied it. -/
structure TodoUpdate where
  title : Option String := none
  description : Option String := none
  status : Option TodoStatus := none
  dueAt : Option Timestamp := none
  completedAt : Option Timestamp := none
deriving DecidableEq, Repr

/-- Effect of the UPDATE statement issued by `Todo.update` on the matched
row: each supplied field is overwritten, `edited_at` is set to the
current time, all other columns keep their value. -/
def applyUpdate (r : TodoRow) (u : TodoUpdate) (now : Timestamp) : TodoRow :=
  { r with
    title := u.title.getD r.title
    description := u.description.getD r.description
    status := u.status.getD r.status
    dueAt := match u.dueAt with | some d => some d | none => r.dueAt
    completedAt := match u.completedAt with | some c => some c | none => r.completedAt
    editedAt := some now }

/-- `Todo.create` (src/models/Todo.ts): sets `createdAt` to the current
time when absent, INSERTs the props into `todos` RETURNING the hydrated
row.  The NOT NULL constraints on `title` and `description` make the
INSERT fail when either is missing; `id` is drawn from the SERIAL
sequence. -/
def Todo.create (st : Store) (now : Timestamp) (props : TodoInsert) :
    Except StoreError (Store × TodoRow) :=
  if st.failing then .error .connectionFailure
  else
    let createdAt := props.createdAt.getD now
    match props.title, props.description with
    | some title, some description =>
      let row : TodoRow :=
        { id := st.nextTodoId, title := title, description := description
          status := props.status, dueAt := props.dueAt, createdAt := createdAt
          completedAt := props.completedAt, editedAt := props.editedAt
          userId := props.userId }
      .ok ({ st with todos := st.todos ++ [row], nextTodoId := st.nextTodoId + 1 }, row)
    | _, _ => .error .notNullViolation

/-- `Todo.read` (src/models/Todo.ts): `SELECT * FROM todos WHERE id = $id`,
returning `none` when no row matches.  The id argument is optional: a
non-numeric `:id` segment yields no numeric id (NaN), which matches no
row. -/
def Todo.read (st : Store) (id : Option Nat) : Except StoreError (Option TodoRow) :=
  if st.failing then .error .connectionFailure
  else .ok (match id with
            | none => none
            | some i => st.todos.find? (fun r => r.id == i))

/-- `Todo.readAll` (src/models/Todo.ts): despite accepting `userId`,
`filters`, `sortBy` and `orderBy`, the implementation issues a plain
`SELECT * FROM todos` — none of the arguments reach the query. -/
def Todo.readAll (st : Store) (_userId : Option Nat) (_filters : Option TodoUpdate)
    (_sortBy : Option String) (_orderBy : Option String) :
    Except StoreError (List TodoRow) :=
  if st.failing then .error .connectionFailure
  else .ok st.todos

/-- `Todo.update` (src/models/Todo.ts): UPDATE of the supplied fields plus
`edited_at = now` on the row whose id equals the instance id, RETURNING
the updated row, which then replaces the instance props.  When no row
matches, nothing is updated and the instance props are unchanged. -/
def Todo.update (st : Store) (now : Timestamp) (t : TodoRow) (u : TodoUpdate) :
    Except StoreError (Store × TodoRow) :=
  if st.failing then .error .connectionFailure
  else
    match st.todos.find? (fun r => r.id == t.id) with
    | some r0 =>
      let newRow := applyUpdate r0 u now
      .ok ({ st with todos := st.todos.map (fun r => if r.id == t.id then newRow else r) },
           newRow)
    | none => .ok (st, t)

/-- `Todo.delete` (src/models/Todo.ts): `DELETE FROM todos WHERE id = $id`,
returning whether exactly one row was affected.  Per the schema's
`ON DELETE CASCADE` on `subtodos.todo_id`, every subtodo row referencing
the deleted todo is deleted as well. -/
def Todo.delete (st : Store) (t : TodoRow) : Except StoreError (Store × Bool) :=
  if st.failing then .error .connectionFailure
  else
    let affected := (st.todos.filter (fun r => r.id == t.id)).length
    .ok ({ st with
           todos := st.todos.filter (fun r => r.id != t.id)
           subtodos := st.subtodos.filter (fun s => s.todoId != some t.id) },
         affected == 1)

/-- `Todo.markComplete` (src/models/Todo.ts): exactly
`this.update({status: "complete", completedAt: createUTCDate()})`. -/
def Todo.markComplete (st : Store) (now : Timestamp) (t : TodoRow) :
    Except StoreError (Store × TodoRow) :=
  Todo.update st now t { status := some .complete, completedAt := some now }

/-- Modelled from the spec: no Subtodo entity module exists under src/;
fetching a Subtodo by id is the evident `SELECT * FROM subtodos WHERE
id = $id`, returning none when no row matches. -/
def Subtodo.read (st : Store) (id : Nat) : Option SubtodoRow :=
  st.subtodos.find? (fun s => s.id == id)

/-- Modelled from the spec: the `StatusCode` enum of the router's
Response module (absent from src/) holds the standard HTTP status
numbers named in the spec's route table. -/
def StatusCode.OK : Nat := 200

/-- 201 Created. -/
def StatusCode.Created : Nat := 201

/-- 400 Bad Request. -/
def StatusCode.BadRequest : Nat := 400

/-- 401 Unauthorized. -/
def StatusCode.Unauthorized : Nat := 401

/-- 403 Forbidden. -/
def StatusCode.Forbidden : Nat := 403

/-- 404 Not Found. -/
def StatusCode.NotFound : Nat := 404

/-- 500 Internal Server Error. -/
def StatusCode.InternalServerError : Nat := 500

/-- The request body fields the Todo routes look at. -/
structure RequestBody where
  title : Option String := none
  description : Option String := none
  dueAt : Option Timestamp := none
  userId : Option Nat := none
deriving DecidableEq, Repr

/-- Modelled from the spec: the router's Request object (absent from
src/).  `session` is the authenticated user of the request's session
cookie (`none` = unauthenticated); `idParam` is the parsed numeric `:id`
path segment, `none` when the segment is non-numeric. -/
structure Request where
  session : Option Nat := none
  body : RequestBody := {}
  idParam : Option Nat := none
deriving DecidableEq, Repr

/-- The response a handler sends: the status code and message passed to
`res.send`, plus the payload fields the Todo handlers populate. -/
structure Resp where
  statusCode : Nat
  message : String
  payloadTodo : Option TodoRow := none
  payloadTodos : List (TodoRow × Bool) := []
deriving DecidableEq, Repr

/-- Result of running a handler: the resulting store, the response sent,
and whether the handler logged an error via `console.error`. -/
structure HandlerOut where
  st : Store
  res : Resp
  logged : Bool
deriving DecidableEq, Repr

/-- JavaScript truthiness of an optional string (`if (req.body.title)`):
false for undefined and for the empty string. -/
def truthy (s : Option String) : Bool :=
  match s with
  | some str => str ≠ ""
  | none => false

/-- `TodoController.getTodoList`: `Todo.readAll` inside try/catch (catch
logs and leaves the list empty), then always `res.send` with status OK,
message "Todo list retrieved" and the list decorated with an
`isComplete` flag. -/
def TodoController.getTodoList (st : Store) (_req : Request) : HandlerOut :=
  match Todo.readAll st none none none none with
  | .ok todos =>
    { st := st
      res := { statusCode := StatusCode.OK, message := "Todo list retrieved"
               payloadTodos := todos.map (fun t => (t, t.status == .complete)) }
      logged := false }
  | .error _ =>
    { st := st
      res := { statusCode := StatusCode.OK, message := "Todo list retrieved"
               payloadTodos := [] }
      logged := true }

/-- `TodoController.getTodo`: `Todo.read(sql, req.getId())` inside
try/catch (catch logs, todo stays null), then always `res.send` with
status OK and message "Todo retrieved". -/
def TodoController.getTodo (st : Store) (req : Request) : HandlerOut :=
  match Todo.read st req.idParam with
  | .ok todo =>
    { st := st
      res := { statusCode := StatusCode.OK, message := "Todo retrieved"
               payloadTodo := todo }
      logged := false }
  | .error _ =>
    { st := st
      res := { statusCode := StatusCode.OK, message := "Todo retrieved"
               payloadTodo := none }
      logged := true }

/-- `TodoController.createTodo`: builds `todoProps` from only
`req.body.title`, `req.body.description`, status "incomplete" and
`createdAt = createUTCDate()`; `Todo.create` inside try/catch (catch
logs, todo stays null); then always `res.send` with status Created and
message "Todo created successfully!". -/
def TodoController.createTodo (st : Store) (req : Request) (now : Timestamp) : HandlerOut :=
  let props : TodoInsert :=
    { title := req.body.title, description := req.body.description
      status := .incomplete, createdAt := some now }
  match Todo.create st now props with
  | .ok (st1, row) =>
    { st := st1
      res := { statusCode := StatusCode.Created, message := "Todo created successfully!"
               payloadTodo := some row }
      logged := false }
  | .error _ =>
    { st := st
      res := { statusCode := StatusCode.Created, message := "Todo created successfully!"
               payloadTodo := none }
      logged := true }

/-- The partial props `TodoController.updateTodo` builds: `title` and
`description` are included only when truthy in the body; no other field
is ever supplied. -/
def updateProps (body : RequestBody) : TodoUpdate :=
  { title := if truthy body.title then body.title else none
    description := if truthy body.description then body.description else none }

/-- `TodoController.updateTodo`: reads the todo (try/catch), calls
`todo?.update` with the title/description subset (try/catch), then
always `res.send` with status OK, message "Todo updated successfully!"
and the instance props as payload. -/
def TodoController.updateTodo (st : Store) (req : Request) (now : Timestamp) : HandlerOut :=
  match Todo.read st req.idParam with
  | .error _ =>
    { st := st
      res := { statusCode := StatusCode.OK, message := "Todo updated successfully!"
               payloadTodo := none }
      logged := true }
  | .ok none =>
    { st := st
      res := { statusCode := StatusCode.OK, message := "Todo updated successfully!"
               payloadTodo := none }
      logged := false }
  | .ok (some t) =>
    match Todo.update st now t (updateProps req.body) with
    | .ok (st1, t1) =>
      { st := st1
        res := { statusCode := StatusCode.OK, message := "Todo updated successfully!"
                 payloadTodo := some t1 }
        logged := false }
    | .error _ =>
      { st := st
        res := { statusCode := StatusCode.OK, message := "Todo updated successfully!"
                 payloadTodo := some t }
        logged := true }

/-- `TodoController.deleteTodo`: reads the todo (try/catch), calls
`todo?.delete()` (try/catch), then always `res.send` with status OK and
message "Todo deleted successfully!". -/
def TodoController.deleteTodo (st : Store) (req : Request) : HandlerOut :=
  match Todo.read st req.idParam with
  | .error _ =>
    { st := st
      res := { statusCode := StatusCode.OK, message := "Todo deleted successfully!"
               payloadTodo := none }
      logged := true }
  | .ok none =>
    { st := st
      res := { statusCode := StatusCode.OK, message := "Todo deleted successfully!"
               payloadTodo := none }
      logged := false }
  | .ok (some t) =>
    match Todo.delete st t with
    | .ok (st1, _) =>
      { st := st1
        res := { statusCode := StatusCode.OK, message := "Todo deleted successfully!"
                 payloadTodo := some t }
        logged := false }
    | .error _ =>
      { st := st
        res := { statusCode := StatusCode.OK, message := "Todo deleted successfully!"
                 payloadTodo := some t }
        logged := true }

/-- `TodoController.completeTodo`: reads the todo (try/catch), calls
`todo?.markComplete()` (try/catch), then always `res.send` with status
OK and message "Todo marked as complete!". -/
def TodoController.completeTodo (st : Store) (req : Request) (now : Timestamp) : HandlerOut :=
  match Todo.read st req.idParam with
  | .error _ =>
    { st := st
      res := { statusCode := StatusCode.OK, message := "Todo marked as complete!"
               payloadTodo := none }
      logged := true }
  | .ok none =>
    { st := st
      res := { statusCode := StatusCode.OK, message := "Todo marked as complete!"
               payloadTodo := none }
      logged := false }
  | .ok (some t) =>
    match Todo.markComplete st now t with
    | .ok (st1, t1) =>
      { st := st1
        res := { statusCode := StatusCode.OK, message := "Todo marked as complete!"
                 payloadTodo := some t1 }
        logged := false }
    | .error _ =>
      { st := st
        res := { statusCode := StatusCode.OK, message := "Todo marked as complete!"
                 payloadTodo := some t }
        logged := true }

/-- One Todo-route request, as dispatched by the router to the
corresponding `TodoController` handler. -/
inductive ControllerOp where
  | list (req : Request)
  | get (req : Request)
  | create (req : Request) (now : Timestamp)
  | update (req : Request) (now : Timestamp)
  | del (req : Request)
  | complete (req : Request) (now : Timestamp)
deriving Repr

/-- Effect of one Todo-route request on the store. -/
def TodoController.step (st : Store) (op : ControllerOp) : Store :=
  match op with
  | .list req => (TodoController.getTodoList st req).st
  | .get req => (TodoController.getTodo st req).st
  | .create req now => (TodoController.createTodo st req now).st
  | .update req now => (TodoController.updateTodo st req now).st
  | .del req => (TodoController.deleteTodo st req).st
  | .complete req now => (TodoController.completeTodo st req now).st

/-- Effect of a sequence of Todo-route requests on the store. -/
def TodoController.run (st : Store) (ops : List ControllerOp) : Store :=
  ops.foldl TodoController.step st

/-- SELECT of the todo with a given id (first matching row). -/
def lookupTodo (st : Store) (i : Nat) : Option TodoRow :=
  st.todos.find? (fun r => r.id == i)

/-- Store well-formedness: every todo id was drawn from the SERIAL
sequence, so it is below the next sequence value. -/
def Store.wf (st : Store) : Prop :=
  ∀ r ∈ st.todos, r.id < st.nextTodoId

/-- A concrete todo row used as a test fixture. -/
def exRow : TodoRow :=
  { id := 1, title := "Test Todo", description := "This is a test todo"
    status := .incomplete, dueAt := none, createdAt := 0
    completedAt := none, editedAt := none, userId := some 1 }

/-- A concrete store holding one todo row. -/
def exStore : Store :=
  { todos := [exRow], subtodos := [], nextTodoId := 2, failing := false }

/-- The store `exStore` with its connection failing. -/
def exFailingStore : Store :=
  { exStore with failing := true }

/-- An unauthenticated GET request (no session cookie, empty body). -/
def unauthReq : Request := {}

/-- An authenticated POST /todos request whose body is missing `title`. -/
def missingTitleReq : Request :=
  { session := some 1
    body := { description := some "This is a test todo", dueAt := some 7, userId := some 1 } }

/-- An authenticated GET /todos/abc request: non-numeric id segment. -/
def badIdReq : Request :=
  { session := some 1, idParam := none }

/-- An authenticated GET /todos/99 request: no row with id 99 exists in
`exStore`. -/
def absentIdReq : Request :=
  { session := some 1, idParam := some 99 }

/-- An authenticated GET /todos request. -/
def authListReq : Request :=
  { session := some 1 }

/-- Store evolution: the SERIAL sequence never decreases, and every row
now present under an id that predates the start state descends from a
row present at the start whose complete status it preserves. -/
def Evolves (st st1 : Store) : Prop :=
  st.nextTodoId ≤ st1.nextTodoId ∧
  ∀ i r1, lookupTodo st1 i = some r1 → i < st.nextTodoId →
    ∃ r, lookupTodo st i = some r ∧ (r.status = .complete → r1.status = .complete)

/-- The four store effects a Todo-route handler can have: no change; an
INSERT of a fresh-id row; an UPDATE replacing the rows of one id by
`applyUpdate` of the first such row under a partial-props set that never
writes status incomplete; or a DELETE of one id with its cascade. -/
def StepShape (st st1 : Store) : Prop :=
  st1 = st ∨
  (∃ row : TodoRow, row.id = st.nextTodoId ∧
     st1 = { st with todos := st.todos ++ [row], nextTodoId := st.nextTodoId + 1 }) ∨
  (∃ j r0 u now, st.todos.find? (fun r => r.id == j) = some r0 ∧
     (u.status = none ∨ u.status = some TodoStatus.complete) ∧
     st1 = { st with todos :=
               st.todos.map (fun r => if r.id == j then applyUpdate r0 u now else r) }) ∨
  (∃ j, st1 = { st with todos := st.todos.filter (fun r => r.id != j),
                        subtodos := st.subtodos.filter (fun s2 => s2.todoId != some j) })

/-- Frame property of `Todo.update` on a todo present in the store:
the update succeeds, the supplied fields take the supplied values, the
unsupplied ones are unchanged, `editedAt` is stamped with the current
time, and re-applying the same partial props leaves the title at its
once-updated value. -/
def UpdateFrame (st : Store) (t : TodoRow) (u : TodoUpdate) (now : Timestamp) : Prop :=
  ∃ st1 t1, Todo.update st now t u = .ok (st1, t1) ∧
    t1.editedAt = some now ∧
    t1.title = u.title.getD t.title ∧
    t1.description = u.description.getD t.description ∧
    t1.status = u.status.getD t.status ∧
    t1.dueAt = (match u.dueAt with | some d => some d | none => t.dueAt) ∧
    t1.completedAt = (match u.completedAt with | some c => some c | none => t.completedAt) ∧
    t1.id = t.id ∧ t1.createdAt = t.createdAt ∧ t1.userId = t.userId ∧
    (∀ now2 st2 t2, Todo.update st1 now2 t1 u = .ok (st2, t2) → t2.title = t1.title)

/-- Effect property of `Todo.markComplete` on a todo present in the
store: the call succeeds (whatever the prior status), leaves the status
complete, and a repeated call also succeeds and leaves it complete. -/
def MarkCompleteIdem (st : Store) (t : TodoRow) (now : Timestamp) : Prop :=
  ∃ st1 t1, Todo.markComplete st now t = .ok (st1, t1) ∧ t1.status = .complete ∧
    ∀ now2, ∃ st2 t2, Todo.markComplete st1 now2 t1 = .ok (st2, t2) ∧ t2.status = .complete

/-- What `createTodo` builds on a complete body: a 201 response whose
created row carries the body's title and description, status incomplete,
the server's current time as `createdAt`, and no `dueAt`, `userId`,
`completedAt` or `editedAt`, appended to the table. -/
def CreateFromBody (st : Store) (req : Request) (now : Timestamp) (ti de : String) : Prop :=
  ∃ row, (TodoController.createTodo st req now).res.statusCode = 201 ∧
    (TodoController.createTodo st req now).res.payloadTodo = some row ∧
    (TodoController.createTodo st req now).st.todos = st.todos ++ [row] ∧
    row.title = ti ∧ row.description = de ∧ row.status = .incomplete ∧
    row.createdAt = now ∧ row.dueAt = none ∧ row.userId = none ∧
    row.completedAt = none ∧ row.editedAt = none

/-- A concrete complete todo row. -/
def cRow : TodoRow :=
  { id := 1, title := "Done Todo", description := "Already finished"
    status := .complete, dueAt := none, createdAt := 0
    completedAt := some 3, editedAt := some 3, userId := some 1 }

/-- A concrete store holding one complete todo row. -/
def cStore : Store :=
  { todos := [cRow], subtodos := [], nextTodoId := 2, failing := false }

/-- A concrete PUT /todos/1 request changing the title. -/
def c6op : ControllerOp :=
  .update { session := some 1, body := { title := some "X" }, idParam := some 1 } 9

/-- A concrete subtodo row belonging to the todo with id 1. -/
def exSub : SubtodoRow :=
  { id := 4, title := "Sub", status := .incomplete, createdAt := 0
    completedAt := none, editedAt := none, todoId := some 1 }

/-- A concrete store holding one todo row and one subtodo of it. -/
def exStoreWithSub : Store :=
  { todos := [exRow], subtodos := [exSub], nextTodoId := 2, failing := false }

/-- C1: the claim says every Todo route rejects an unauthenticated
request with 401 and performs no entity-module operation.  The stub
handler never inspects the session: on an unauthenticated GET /todos it
responds 200 "Todo list retrieved" and has run `Todo.readAll` — the
payload is the full todos table. -/
theorem getTodoList_unauthenticated_responds_200 :
    (TodoController.getTodoList exStore unauthReq).res.statusCode = 200 ∧
    (TodoController.getTodoList exStore unauthReq).res.message = "Todo list retrieved" ∧
    (TodoController.getTodoList exStore unauthReq).res.payloadTodos = [(exRow, false)] := by
  refine ⟨rfl, rfl, ?_⟩
  decide

/-- C2: the claim says POST /todos with a missing required field yields
400 and creates nothing, and only a complete body yields 201.  The stub
handler does no validation: with `title` missing the INSERT fails on the
NOT NULL constraint, the error is caught, and the handler still responds
201 "Todo created successfully!" with a null todo and an unchanged
store. -/
theorem createTodo_missing_title_responds_201 :
    (TodoController.createTodo exStore missingTitleReq 5).res.statusCode = 201 ∧
    (TodoController.createTodo exStore missingTitleReq 5).res.payloadTodo = none ∧
    (TodoController.createTodo exStore missingTitleReq 5).st = exStore ∧
    (TodoController.createTodo exStore missingTitleReq 5).logged = true := by
  refine ⟨rfl, ?_, ?_, rfl⟩ <;> decide

/-- C3: the claim says GET /todos/:id responds 400 on a non-numeric id
segment and 404 on a missing row.  The stub handler responds 200 "Todo
retrieved" in both cases, with a null todo payload. -/
theorem getTodo_bad_or_absent_id_responds_200 :
    (TodoController.getTodo exStore badIdReq).res.statusCode = 200 ∧
    (TodoController.getTodo exStore badIdReq).res.payloadTodo = none ∧
    (TodoController.getTodo exStore absentIdReq).res.statusCode = 200 ∧
    (TodoController.getTodo exStore absentIdReq).res.payloadTodo = none ∧
    (TodoController.getTodo exStore absentIdReq).res.message = "Todo retrieved" := by
  refine ⟨rfl, ?_, rfl, ?_, rfl⟩ <;> decide

/-- C4: the claim says a store error makes the handler respond 500.  On
a store whose connection fails, `getTodoList` does catch the error,
logs it, and sends a response whose fields are the fixed success values
(no internal detail) — but with status 200, not 500. -/
theorem getTodoList_store_error_responds_200 :
    (TodoController.getTodoList exFailingStore authListReq).res.statusCode = 200 ∧
    (TodoController.getTodoList exFailingStore authListReq).logged = true ∧
    (TodoController.getTodoList exFailingStore authListReq).res.message = "Todo list retrieved" ∧
    (TodoController.getTodoList exFailingStore authListReq).res.payloadTodos = [] := by
  refine ⟨rfl, ?_, rfl, ?_⟩ <;> decide

/-- Appending a row whose id misses the searched id does not change the
result of the search. -/
theorem find_append_singleton (l : List TodoRow) (row : TodoRow) (i : Nat)
    (hne : row.id ≠ i) :
    (l ++ [row]).find? (fun r => r.id == i) = l.find? (fun r => r.id == i) := by
  have h1 : List.find? (fun r => r.id == i) [row] = none := by
    simp [List.find?_eq_none, hne]
  rw [List.find?_append, h1, Option.or_none]

/-- Searching by id commutes with mapping an id-preserving function. -/
theorem find_map_id_preserved (l : List TodoRow) (f : TodoRow → TodoRow)
    (hf : ∀ r, (f r).id = r.id) (i : Nat) :
    (l.map f).find? (fun r => r.id == i) = (l.find? (fun r => r.id == i)).map f := by
  have hp : ((fun r : TodoRow => r.id == i) ∘ f) = (fun r : TodoRow => r.id == i) := by
    funext r
    simp [Function.comp, hf r]
  rw [List.find?_map, hp]

/-- A successful search in the rows filtered away from one id succeeds
identically in the unfiltered rows. -/
theorem find_filter_ne (l : List TodoRow) (j i : Nat) (r1 : TodoRow)
    (h : (l.filter (fun r => r.id != j)).find? (fun r => r.id == i) = some r1) :
    l.find? (fun r => r.id == i) = some r1 := by
  rw [List.find?_filter] at h
  have hr0 := List.find?_some h
  have hr1 := of_decide_eq_true hr0
  have hr1i : r1.id = i := by simpa using hr1.2
  have hr1j : r1.id ≠ j := by simpa using hr1.1
  have hij : i ≠ j := fun hq => hr1j (by rw [hr1i, hq])
  have hp : (fun a : TodoRow => decide ((a.id != j) = true ∧ (a.id == i) = true)) =
      (fun r : TodoRow => r.id == i) := by
    funext r
    by_cases h2 : r.id = i
    · simp [h2, hij]
    · simp [h2]
  rw [hp] at h
  exact h

/-- On a non-failing store, `Todo.update` of a todo whose row is found
in the table replaces every row of that id by the updated row and
returns it. -/
theorem update_found (st : Store) (now : Timestamp) (t : TodoRow) (u : TodoUpdate)
    (hfail : st.failing = false)
    (hfind : st.todos.find? (fun r => r.id == t.id) = some t) :
    Todo.update st now t u =
      .ok ({ st with todos :=
               st.todos.map (fun r => if r.id == t.id then applyUpdate t u now else r) },
           applyUpdate t u now) := by
  simp [Todo.update, hfail, hfind]

/-- After replacing the rows of one id, searching for the replacement's
id finds the replacement. -/
theorem replace_map_refind (st : Store) (t : TodoRow) (nr : TodoRow) (hid : nr.id = t.id)
    (hfind : st.todos.find? (fun r => r.id == t.id) = some t) :
    (st.todos.map (fun r => if r.id == t.id then nr else r)).find?
      (fun r => r.id == nr.id) = some nr := by
  have hf : ∀ r : TodoRow, ((if r.id == t.id then nr else r) : TodoRow).id = r.id := by
    intro r
    by_cases h : r.id = t.id
    · simp [h, hid]
    · simp [h]
  rw [hid, find_map_id_preserved _ _ hf, hfind]
  simp

/-- C5: `Todo.update` changes exactly the supplied fields, stamps
`editedAt` with the current time, leaves every other field unchanged,
and re-applying the same partial props is idempotent on the title. -/
theorem todo_update_frame (st : Store) (t : TodoRow) (u : TodoUpdate) (now : Timestamp)
    (hfail : st.failing = false)
    (hfind : st.todos.find? (fun r => r.id == t.id) = some t) :
    UpdateFrame st t u now := by
  have hup := update_found st now t u hfail hfind
  refine ⟨_, _, hup, rfl, rfl, rfl, rfl, rfl, rfl, rfl, rfl, rfl, ?_⟩
  intro now2 st2 t2 h2
  have hfind2 := replace_map_refind st t (applyUpdate t u now) rfl hfind
  have hup2 := update_found
    { st with todos := st.todos.map (fun r => if r.id == t.id then applyUpdate t u now else r) }
    now2 (applyUpdate t u now) u hfail hfind2
  rw [hup2] at h2
  simp only [Except.ok.injEq, Prod.mk.injEq] at h2
  rw [← h2.2]
  cases hu : u.title <;> simp [applyUpdate, hu]

/-- C5 witness partial props: a title-only update. -/
theorem todo_update_frame_w : UpdateFrame exStore exRow { title := some "New" } 5 :=
  todo_update_frame exStore exRow { title := some "New" } 5 rfl (by decide)

/-- C7: `Todo.markComplete` is definitionally the partial update that
sets status complete and stamps `completedAt`; on a todo present in the
store it succeeds whatever the prior status, ends with status complete,
and a repeated call also succeeds and ends complete. -/
theorem markComplete_is_update_and_idempotent (st : Store) (t : TodoRow) (now : Timestamp)
    (hfail : st.failing = false)
    (hfind : st.todos.find? (fun r => r.id == t.id) = some t) :
    Todo.markComplete st now t =
      Todo.update st now t { status := some .complete, completedAt := some now } ∧
    MarkCompleteIdem st t now := by
  refine ⟨rfl, ?_⟩
  have hup := update_found st now t { status := some .complete, completedAt := some now }
    hfail hfind
  refine ⟨_, _, hup, rfl, ?_⟩
  intro now2
  have hfind2 := replace_map_refind st t
    (applyUpdate t { status := some .complete, completedAt := some now } now) rfl hfind
  have hup2 := update_found
    { st with todos := st.todos.map (fun r =>
        if r.id == t.id
        then applyUpdate t { status := some .complete, completedAt := some now } now
        else r) }
    now2 (applyUpdate t { status := some .complete, completedAt := some now } now)
    { status := some TodoStatus.complete, completedAt := some now2 } hfail hfind2
  exact ⟨_, _, hup2, rfl⟩

/-- C7 witness: `exRow` is incomplete, and `cRow`-style repetition is
covered by the theorem's repeated-call conjunct. -/
theorem markComplete_is_update_and_idempotent_w :
    Todo.markComplete exStore 5 exRow =
      Todo.update exStore 5 exRow { status := some .complete, completedAt := some 5 } ∧
    MarkCompleteIdem exStore exRow 5 :=
  markComplete_is_update_and_idempotent exStore exRow 5 rfl (by decide)

/-- C9: `Todo.readAll` ignores its `userId`, `filters`, `sortBy` and
`orderBy` arguments: any two calls on the same store return the same
result, and on a non-failing store that result is the whole todos
table. -/
theorem readAll_ignores_arguments (st : Store) (hfail : st.failing = false)
    (u1 u2 : Option Nat) (f1 f2 : Option TodoUpdate) (s1 o1 s2 o2 : Option String) :
    Todo.readAll st u1 f1 s1 o1 = .ok st.todos ∧
    Todo.readAll st u1 f1 s1 o1 = Todo.readAll st u2 f2 s2 o2 := by
  constructor
  · simp [Todo.readAll, hfail]
  · rfl

/-- C9 witness: two calls with different user ids, filters and sort
arguments on the one-row store. -/
theorem readAll_ignores_arguments_w :
    Todo.readAll exStore (some 1) none (some "title") (some "asc") = .ok exStore.todos ∧
    Todo.readAll exStore (some 1) none (some "title") (some "asc") =
      Todo.readAll exStore (some 2) (some { title := some "x" }) none (some "desc") :=
  readAll_ignores_arguments exStore rfl (some 1) (some 2) none (some { title := some "x" })
    (some "title") (some "asc") none (some "desc")

/-- C10: `createTodo` builds the new todo from only the body's title and
description: the created row has the server time as `createdAt`, status
incomplete, and no `dueAt` or `userId` taken from the request body. -/
theorem createTodo_only_title_description (st : Store) (req : Request) (now : Timestamp)
    (ti de : String) (hfail : st.failing = false)
    (ht : req.body.title = some ti) (hd : req.body.description = some de) :
    CreateFromBody st req now ti de := by
  refine ⟨{ id := st.nextTodoId, title := ti, description := de, status := .incomplete,
            dueAt := none, createdAt := now, completedAt := none, editedAt := none,
            userId := none }, ?_, ?_, ?_, rfl, rfl, rfl, rfl, rfl, rfl, rfl, rfl⟩
  · simp [TodoController.createTodo, Todo.create, hfail, ht, hd, StatusCode.Created]
  · simp [TodoController.createTodo, Todo.create, hfail, ht, hd]
  · simp [TodoController.createTodo, Todo.create, hfail, ht, hd]

/-- A concrete POST /todos request whose body also carries `dueAt` and
`userId`. -/
def c10req : Request :=
  { session := some 1
    body := { title := some "Test Todo", description := some "This is a test todo"
              dueAt := some 7, userId := some 9 } }

/-- C10 witness: a body carrying `dueAt` and `userId` still yields a row
without them. -/
theorem createTodo_only_title_description_w :
    CreateFromBody exStore c10req 5 "Test Todo" "This is a test todo" :=
  createTodo_only_title_description exStore c10req 5 "Test Todo" "This is a test todo"
    rfl rfl rfl

/-- C8: deleting a todo cascades per the schema's ON DELETE CASCADE:
after a successful `Todo.delete`, fetching any subtodo that belonged to
the deleted todo returns none (subtodo ids are unique, being a SERIAL
primary key). -/
theorem todo_delete_cascades (st : Store) (t : TodoRow) (s : SubtodoRow)
    (hfail : st.failing = false)
    (hnodup : (st.subtodos.map (fun x => x.id)).Nodup)
    (hs : s ∈ st.subtodos) (hb : s.todoId = some t.id) :
    ∃ st1 b, Todo.delete st t = .ok (st1, b) ∧ Subtodo.read st1 s.id = none := by
  have hdel : Todo.delete st t = .ok
      ({ st with todos := st.todos.filter (fun r => r.id != t.id),
                 subtodos := st.subtodos.filter (fun s2 => s2.todoId != some t.id) },
       ((st.todos.filter (fun r => r.id == t.id)).length == 1)) := by
    simp [Todo.delete, hfail]
  refine ⟨_, _, hdel, ?_⟩
  show (st.subtodos.filter (fun s2 => s2.todoId != some t.id)).find?
    (fun x => x.id == s.id) = none
  rw [List.find?_eq_none]
  intro x hx hpx
  have hxm := List.mem_filter.mp hx
  have hxid : x.id = s.id := by simpa using hpx
  have hxeq : x = s := List.inj_on_of_nodup_map hnodup hxm.1 hs hxid
  have hxt : (x.todoId != some t.id) = true := hxm.2
  rw [hxeq, hb] at hxt
  simp at hxt

/-- C8 witness: the one-todo one-subtodo store. -/
theorem todo_delete_cascades_w :
    ∃ st1 b, Todo.delete exStoreWithSub exRow = .ok (st1, b) ∧
      Subtodo.read st1 exSub.id = none :=
  todo_delete_cascades exStoreWithSub exRow exSub rfl (by decide)
    (List.mem_singleton_self exSub) rfl

/-- A successful `Todo.create` appends a row carrying the next SERIAL id
and advances the sequence. -/
theorem create_result_shape (st : Store) (now : Timestamp) (props : TodoInsert)
    (st1 : Store) (row : TodoRow) (h : Todo.create st now props = .ok (st1, row)) :
    row.id = st.nextTodoId ∧
    st1 = { st with todos := st.todos ++ [row], nextTodoId := st.nextTodoId + 1 } := by
  by_cases hf : st.failing
  · simp [Todo.create, hf] at h
  · have hfail : st.failing = false := by simpa using hf
    cases ht : props.title with
    | none => simp [Todo.create, hf, ht] at h
    | some a =>
      cases hd : props.description with
      | none => simp [Todo.create, hf, ht, hd] at h
      | some b =>
        simp [Todo.create, hf, ht, hd] at h
        constructor
        · rw [← h.2]
        · rw [← h.1, ← h.2, hfail]

/-- A successful `Todo.update` either found no row (store unchanged) or
replaced the rows of the instance id by the update of the first such
row. -/
theorem update_result_shape (st : Store) (now : Timestamp) (t : TodoRow) (u : TodoUpdate)
    (st1 : Store) (t1 : TodoRow) (h : Todo.update st now t u = .ok (st1, t1)) :
    st1 = st ∨
    ∃ r0, st.todos.find? (fun r => r.id == t.id) = some r0 ∧
      st1 = { st with
              todos := st.todos.map
                (fun r => if r.id == t.id then applyUpdate r0 u now else r) } := by
  by_cases hf : st.failing
  · simp [Todo.update, hf] at h
  · have hfail : st.failing = false := by simpa using hf
    cases hfind : st.todos.find? (fun r => r.id == t.id) with
    | none =>
      left
      simp [Todo.update, hf, hfind] at h
      exact h.1.symm
    | some r0 =>
      right
      refine ⟨r0, rfl, ?_⟩
      simp [Todo.update, hf, hfind] at h
      rw [← h.1, hfail]
      simp

/-- A successful `Todo.delete` filters out the deleted id from `todos`
and its cascade from `subtodos`. -/
theorem delete_result_shape (st : Store) (t : TodoRow) (st1 : Store) (b : Bool)
    (h : Todo.delete st t = .ok (st1, b)) :
    st1 = { st with todos := st.todos.filter (fun r => r.id != t.id),
                    subtodos := st.subtodos.filter (fun s2 => s2.todoId != some t.id) } := by
  by_cases hf : st.failing
  · simp [Todo.delete, hf] at h
  · have hfail : st.failing = false := by simpa using hf
    simp [Todo.delete, hf] at h
    rw [← h.1, hfail]

/-- `getTodoList` never changes the store. -/
theorem getTodoList_state (st : Store) (req : Request) :
    (TodoController.getTodoList st req).st = st := by
  unfold TodoController.getTodoList
  split <;> rfl

/-- `getTodo` never changes the store. -/
theorem getTodo_state (st : Store) (req : Request) :
    (TodoController.getTodo st req).st = st := by
  unfold TodoController.getTodo
  split <;> rfl

/-- Every Todo-route handler effect has one of the four `StepShape`
forms. -/
theorem step_shape (st : Store) (op : ControllerOp) :
    StepShape st (TodoController.step st op) := by
  cases op with
  | list req =>
    left
    exact getTodoList_state st req
  | get req =>
    left
    exact getTodo_state st req
  | create req now =>
    show StepShape st (TodoController.createTodo st req now).st
    cases hc : Todo.create st now
        { title := req.body.title, description := req.body.description,
          status := TodoStatus.incomplete, createdAt := some now } with
    | error e =>
      left
      simp [TodoController.createTodo, hc]
    | ok p =>
      obtain ⟨st1, row⟩ := p
      have hshape := create_result_shape st now _ st1 row hc
      have hst : (TodoController.createTodo st req now).st = st1 := by
        simp [TodoController.createTodo, hc]
      right; left
      refine ⟨row, hshape.1, ?_⟩
      rw [hst]
      exact hshape.2
  | update req now =>
    show StepShape st (TodoController.updateTodo st req now).st
    cases hr : Todo.read st req.idParam with
    | error e =>
      left
      simp [TodoController.updateTodo, hr]
    | ok o =>
      cases o with
      | none =>
        left
        simp [TodoController.updateTodo, hr]
      | some t =>
        cases hu : Todo.update st now t (updateProps req.body) with
        | error e =>
          left
          simp [TodoController.updateTodo, hr, hu]
        | ok p =>
          obtain ⟨st1, t1⟩ := p
          have hst : (TodoController.updateTodo st req now).st = st1 := by
            simp [TodoController.updateTodo, hr, hu]
          rw [hst]
          rcases update_result_shape st now t _ st1 t1 hu with heq | ⟨r0, hfind, heq⟩
          · left; exact heq
          · right; right; left
            exact ⟨t.id, r0, updateProps req.body, now, hfind, Or.inl rfl, heq⟩
  | complete req now =>
    show StepShape st (TodoController.completeTodo st req now).st
    cases hr : Todo.read st req.idParam with
    | error e =>
      left
      simp [TodoController.completeTodo, hr]
    | ok o =>
      cases o with
      | none =>
        left
        simp [TodoController.completeTodo, hr]
      | some t =>
        cases hu : Todo.markComplete st now t with
        | error e =>
          left
          simp [TodoController.completeTodo, hr, hu]
        | ok p =>
          obtain ⟨st1, t1⟩ := p
          have hst : (TodoController.completeTodo st req now).st = st1 := by
            simp [TodoController.completeTodo, hr, hu]
          rw [hst]
          rcases update_result_shape st now t
              { status := some TodoStatus.complete, completedAt := some now }
              st1 t1 hu with heq | ⟨r0, hfind, heq⟩
          · left; exact heq
          · right; right; left
            exact ⟨t.id, r0, { status := some TodoStatus.complete, completedAt := some now },
                   now, hfind, Or.inr rfl, heq⟩
  | del req =>
    show StepShape st (TodoController.deleteTodo st req).st
    cases hr : Todo.read st req.idParam with
    | error e =>
      left
      simp [TodoController.deleteTodo, hr]
    | ok o =>
      cases o with
      | none =>
        left
        simp [TodoController.deleteTodo, hr]
      | some t =>
        cases hd : Todo.delete st t with
        | error e =>
          left
          simp [TodoController.deleteTodo, hr, hd]
        | ok p =>
          obtain ⟨st1, b⟩ := p
          have hst : (TodoController.deleteTodo st req).st = st1 := by
            simp [TodoController.deleteTodo, hr, hd]
          rw [hst]
          right; right; right
          exact ⟨t.id, delete_result_shape st t st1 b hd⟩

/-- Store evolution is reflexive. -/
theorem evolves_refl (st : Store) : Evolves st st :=
  ⟨Nat.le_refl _, fun _ r1 h _ => ⟨r1, h, fun hc => hc⟩⟩

/-- Store evolution is transitive. -/
theorem evolves_trans (st st1 st2 : Store) (h1 : Evolves st st1) (h2 : Evolves st1 st2) :
    Evolves st st2 := by
  refine ⟨Nat.le_trans h1.1 h2.1, ?_⟩
  intro i r2 hlk hlt
  obtain ⟨r1, hlk1, himp1⟩ := h2.2 i r2 hlk (Nat.lt_of_lt_of_le hlt h1.1)
  obtain ⟨r, hlk0, himp0⟩ := h1.2 i r1 hlk1 hlt
  exact ⟨r, hlk0, fun hc => himp1 (himp0 hc)⟩

/-- Every `StepShape` effect preserves well-formedness and evolves the
store. -/
theorem shape_preserves (st st1 : Store) (hwf : st.wf) (hsh : StepShape st st1) :
    st1.wf ∧ Evolves st st1 := by
  rcases hsh with heq | ⟨row, hrow, heq⟩ | ⟨j, r0, u, now, hfind, hstat, heq⟩ | ⟨j, heq⟩
  · subst heq
    exact ⟨hwf, evolves_refl _⟩
  · subst heq
    constructor
    · intro r hm
      rcases List.mem_append.mp hm with hmem | hmem
      · exact Nat.lt_succ_of_lt (hwf r hmem)
      · have hr : r = row := by simpa using hmem
        rw [hr, hrow]
        exact Nat.lt_succ_self _
    · refine ⟨Nat.le_succ _, ?_⟩
      intro i r1 hlk hlt
      have hne : row.id ≠ i := by
        intro hcon
        rw [hrow] at hcon
        rw [← hcon] at hlt
        exact Nat.lt_irrefl _ hlt
      have hlk' : st.todos.find? (fun r => r.id == i) = some r1 := by
        have happ := find_append_singleton st.todos row i hne
        have hlk2 : (st.todos ++ [row]).find? (fun r => r.id == i) = some r1 := hlk
        rw [happ] at hlk2
        exact hlk2
      exact ⟨r1, hlk', fun hc => hc⟩
  · subst heq
    have hr0id : r0.id = j := by simpa using List.find?_some hfind
    have hfid : ∀ r : TodoRow,
        ((if r.id == j then applyUpdate r0 u now else r) : TodoRow).id = r.id := by
      intro r
      by_cases h2 : r.id = j
      · simp [h2, applyUpdate, hr0id]
      · simp [h2]
    constructor
    · intro r1 hm
      obtain ⟨r, hrm, hfr⟩ := List.mem_map.mp hm
      have hrid : r1.id = r.id := by rw [← hfr]; exact hfid r
      show r1.id < st.nextTodoId
      rw [hrid]
      exact hwf r hrm
    · refine ⟨Nat.le_refl _, ?_⟩
      intro i r1 hlk hlt
      have hmap := find_map_id_preserved st.todos _ hfid i
      have hlk2 : (st.todos.map
          (fun r => if r.id == j then applyUpdate r0 u now else r)).find?
          (fun r => r.id == i) = some r1 := hlk
      rw [hmap] at hlk2
      obtain ⟨r, hr, hfr⟩ := Option.map_eq_some'.mp hlk2
      refine ⟨r, hr, ?_⟩
      intro hc
      by_cases h2 : r.id = j
      · have hr1 : r1 = applyUpdate r0 u now := by rw [← hfr]; simp [h2]
        have hrid : r.id = i := by
          have hr' : st.todos.find? (fun x => x.id == i) = some r := hr
          simpa using List.find?_some hr'
        have hij : i = j := by rw [← hrid, h2]
        rw [← hij] at hfind
        rw [hr] at hfind
        have hr0r : r = r0 := Option.some.inj hfind
        rcases hstat with hnone | hcomp
        · rw [hr1]
          simp [applyUpdate, hnone]
          rw [← hr0r]
          exact hc
        · rw [hr1]
          simp [applyUpdate, hcomp]
      · have hr1 : r1 = r := by rw [← hfr]; simp [h2]
        rw [hr1]
        exact hc
  · subst heq
    constructor
    · intro r hm
      exact hwf r (List.mem_of_mem_filter hm)
    · refine ⟨Nat.le_refl _, ?_⟩
      intro i r1 hlk hlt
      have hlk2 : (st.todos.filter (fun r => r.id != j)).find?
          (fun r => r.id == i) = some r1 := hlk
      exact ⟨r1, find_filter_ne st.todos j i r1 hlk2, fun hc => hc⟩

/-- Any sequence of Todo-route requests preserves well-formedness and
evolves the store. -/
theorem run_evolves (ops : List ControllerOp) (st : Store) (hwf : st.wf) :
    (TodoController.run st ops).wf ∧ Evolves st (TodoController.run st ops) := by
  induction ops generalizing st with
  | nil => exact ⟨hwf, evolves_refl st⟩
  | cons op ops ih =>
    have h1 := shape_preserves st (TodoController.step st op) hwf (step_shape st op)
    have h2 := ih (TodoController.step st op) h1.1
    have hrun : TodoController.run st (op :: ops) =
        TodoController.run (TodoController.step st op) ops := rfl
    rw [hrun]
    exact ⟨h2.1, evolves_trans _ _ _ h1.2 h2.2⟩

/-- C6: across any sequence of Todo controller operations on a
well-formed store, a todo whose status is complete never becomes
incomplete: `updateTodo` supplies only title and description, and
`markComplete` only writes status complete. -/
theorem complete_status_never_reverts (st : Store) (ops : List ControllerOp) (i : Nat)
    (r r1 : TodoRow) (hwf : st.wf)
    (hr : lookupTodo st i = some r) (hc : r.status = .complete)
    (hr1 : lookupTodo (TodoController.run st ops) i = some r1) :
    r1.status = .complete := by
  have h := run_evolves ops st hwf
  have hr' : st.todos.find? (fun x => x.id == i) = some r := hr
  have hrid : r.id = i := by simpa using List.find?_some hr'
  have hlt : i < st.nextTodoId := by
    rw [← hrid]
    exact hwf r (List.mem_of_find?_eq_some hr')
  obtain ⟨r0, hr0, himp⟩ := h.2.2 i r1 hr1 hlt
  rw [hr] at hr0
  have hrr0 : r = r0 := Option.some.inj hr0
  exact himp (hrr0 ▸ hc)

/-- C6 witness: a store holding one complete todo, run through a PUT
/todos/1 title update; the resulting row is still complete. -/
theorem complete_status_never_reverts_w :
    ∃ r1, lookupTodo (TodoController.run cStore [c6op]) 1 = some r1 ∧
      r1.status = .complete := by
  have hlk : lookupTodo (TodoController.run cStore [c6op]) 1 =
      some (applyUpdate cRow { title := some "X" } 9) := by decide
  exact ⟨_, hlk,
    complete_status_never_reverts cStore [c6op] 1 cRow _
      (by
        intro r hm
        have hr : r = cRow := by simpa [cStore] using hm
        rw [hr]
        decide)
      (by decide) (by decide) hlk⟩

end TodoApp
